import Mathlib

/-!
Verification development for the map-whisperer conversational recommendation
engine (`src/api/ai.js`, chatSaved section).  The JavaScript core is shallowly
embedded: JS numbers are modelled as `ℚ`, nullable values as `Option`, code that
can raise a `TypeError` returns `Except Unit`, and the two remote providers
(language-understanding and place details) are passed in as function parameters,
as are `JSON.parse` (a host primitive) and the Haversine `calculateDistance`
(floating-point trigonometry, modelled as an arbitrary function parameter — every
theorem below holds for all of its values, hence for the real one).
-/

/-! ## JavaScript-semantics helpers -/

/-- Truthiness of a JS string: `null`/`undefined`/`''` are falsy. -/
def strTruthy (s : String) : Bool := !s.data.isEmpty

/-- Truthiness of a nullable JS string. -/
def optStrTruthy : Option String → Bool
  | none => false
  | some s => strTruthy s

/-- Models `a || d` for a nullable string `a` and string default `d`
(`''` falls through to the default). -/
def jsOrStrOpt (o : Option String) (d : String) : String :=
  match o with
  | some s => if strTruthy s then s else d
  | none => d

/-- Models `a || b || null` chains on strings: keep the value only if truthy. -/
def jsTruthyOpt : Option String → Option String
  | some s => if strTruthy s then some s else none
  | none => none

/-- Models `x || null` on a nullable JS number (`0` is falsy). -/
def jsTruthyNum : Option ℚ → Option ℚ
  | some r => if r ≠ 0 then some r else none
  | none => none

/-- Models `x || null` on a nullable JS integer count (`0` is falsy). -/
def jsTruthyCount : Option Nat → Option Nat
  | some n => if n ≠ 0 then some n else none
  | none => none

/-- Models `Math.min` on the (idealized, rational) JS numbers we use. -/
def jsMin (a b : ℚ) : ℚ := if a ≤ b then a else b

/-- Substring occurrence on character lists (`pat` occurs contiguously). -/
def listIsInfix (pat : List Char) : List Char → Bool
  | [] => pat.isEmpty
  | c :: rest => pat.isPrefixOf (c :: rest) || listIsInfix pat rest

/-- Models `s.includes(pat)` from JavaScript. -/
def strIncludes (s pat : String) : Bool := listIsInfix pat.data s.data

/-- Models `s.toLowerCase()` (ASCII-adequate: `Char.toLower` per character). -/
def jsToLower (s : String) : String := ⟨s.data.map Char.toLower⟩

/-- Models `s.trim()`: strip leading and trailing whitespace. -/
def jsTrim (s : String) : String :=
  ⟨((s.data.dropWhile Char.isWhitespace).reverse.dropWhile Char.isWhitespace).reverse⟩

/-- Models `[...].filter(Boolean)` on a list of nullable strings: drop
`null`/`undefined` entries and empty strings, preserving order. -/
def jsFilterBoolean (l : List (Option String)) : List String :=
  (l.filterMap id).filter strTruthy

/-- Worker for `jsSplitWhitespace`: `cur` is the current field (reversed),
`inWs` records whether the previous character was whitespace (so that a
whitespace run produces a single split point, as the regex `/\s+/` does). -/
def splitWsGo : List Char → List Char → Bool → List (List Char)
  | [], cur, _ => [cur.reverse]
  | c :: rest, cur, inWs =>
    if c.isWhitespace then
      if inWs then splitWsGo rest [] true
      else cur.reverse :: splitWsGo rest [] true
    else splitWsGo rest (c :: cur) false

/-- Models `s.split(/\s+/)`: fields between maximal whitespace runs, including
an empty leading/trailing field when the string starts/ends with whitespace. -/
def jsSplitWhitespace (s : String) : List String :=
  (splitWsGo s.data [] false).map fun cs => ⟨cs⟩

instance {ε α : Type} [DecidableEq ε] [DecidableEq α] : DecidableEq (Except ε α) := fun a b =>
  match a, b with
  | .ok x, .ok y => if h : x = y then .isTrue (by simp [h]) else .isFalse (by simp [h])
  | .error x, .error y => if h : x = y then .isTrue (by simp [h]) else .isFalse (by simp [h])
  | .ok _, .error _ => .isFalse (by simp)
  | .error _, .ok _ => .isFalse (by simp)

/-! ## Data model

`Place` mirrors the record shape produced by the in-memory place store
(`addPlace`): every field that the store may set to `null` is an `Option`.
`Enriched` mirrors `normalizePlaceDetails` in `src/api/placeDetails.js`
(`openingHours` is `null` when the raw response has no `regularOpeningHours`;
`periods` is never consumed by the chat core and is omitted). -/

structure GeoPoint where
  lat : ℚ
  lng : ℚ
deriving DecidableEq, Repr

structure Place where
  id : String := ""
  name : String := ""
  lat : Option ℚ := none
  lng : Option ℚ := none
  address : Option String := none
  listName : Option String := none
  placeTags : List String := []
  notes : Option String := none
  tags : List String := []
  type : Option String := none
  vibe : Option String := none
  priceLevel : Option Int := none
  placeId : Option String := none
deriving DecidableEq, Repr

structure Categories where
  primary : Option String := none
  primaryDisplayName : Option String := none
  types : List String := []
deriving DecidableEq, Repr

structure ContactInfo where
  phone : Option String := none
  website : Option String := none
deriving DecidableEq, Repr

structure OpeningHoursInfo where
  weekdayText : List String := []
  openNow : Option Bool := none
deriving DecidableEq, Repr

structure Enriched where
  placeId : String := ""
  name : Option String := none
  address : Option String := none
  rating : Option ℚ := none
  userRatingCount : Option Nat := none
  priceLevel : Option Int := none
  categories : Categories := {}
  contact : ContactInfo := {}
  openingHours : Option OpeningHoursInfo := none
  about : Option String := none
deriving DecidableEq, Repr

/-- The slot dimensions recognized by the engine.  A dimension is `none` when
the slots object has no value for it. -/
structure Slots where
  category : Option String := none
  cuisine : Option String := none
  price : Option String := none
  vibe : Option String := none
  openNow : Option Bool := none
  distanceKm : Option ℚ := none
deriving DecidableEq, Repr

/-! ## Scorer (`scorePlace`, ai.js lines 303–382)

Each additive rule of the source is one definition below; `scorePlace` adds the
components in source order.  The price rule is the only one that can raise: its
guard `enrichedData?.priceLevel !== null` is satisfied when `enrichedData` is
`null` (because `undefined !== null` in JS), after which the unguarded
`enrichedData.priceLevel` access throws a `TypeError`. -/

/-- The lower-cased tag pool the category rule searches, in source order:
`[...tags, ...placeTags, type, enrichedData?.categories?.primaryDisplayName]`
after `.filter(Boolean)`. -/
def categoryMatchTags (place : Place) (enrichedData : Option Enriched) : List String :=
  (jsFilterBoolean (place.tags.map some ++ place.placeTags.map some ++
    [place.type, enrichedData.bind fun e => e.categories.primaryDisplayName])).map jsToLower

/-- Category match (20 points). -/
def categoryScore (place : Place) (slots : Slots) (enrichedData : Option Enriched) : ℚ :=
  match slots.category with
  | none => 0
  | some c =>
    if strTruthy c && (categoryMatchTags place enrichedData).any
        (fun tag => strIncludes tag (jsToLower c)) then 20 else 0

/-- The lower-cased tag pool the cuisine rule searches, in source order:
`[...tags, ...placeTags, name, notes, enrichedData?.categories?.primaryDisplayName]`
after `.filter(Boolean)`. -/
def cuisineMatchTags (place : Place) (enrichedData : Option Enriched) : List String :=
  (jsFilterBoolean (place.tags.map some ++ place.placeTags.map some ++
    [some place.name, place.notes,
     enrichedData.bind fun e => e.categories.primaryDisplayName])).map jsToLower

/-- Cuisine match (15 points). -/
def cuisineScore (place : Place) (slots : Slots) (enrichedData : Option Enriched) : ℚ :=
  match slots.cuisine with
  | none => 0
  | some c =>
    if strTruthy c && (cuisineMatchTags place enrichedData).any
        (fun tag => strIncludes tag (jsToLower c)) then 15 else 0

/-- Price band mapping: `'cheap'` targets levels 0–1, every other active value
targets levels 2–3 (source: `slots.price === 'cheap' ? [0, 1] : [2, 3]`). -/
def priceTargetLevels (price : Option String) : List Int :=
  if price == some "cheap" then [0, 1] else [2, 3]

/-- Whether the price rule/filter is active: `slots.price && slots.price !== 'any'`. -/
def priceSlotActive (price : Option String) : Bool :=
  optStrTruthy price && !(price == some "any")

/-- Price match (10 points).  Returns `.error ()` exactly where the source
throws: when the rule is active and `enrichedData` is `null`, the guard
`enrichedData?.priceLevel !== null` evaluates to `undefined !== null = true`
and `targetLevels.includes(enrichedData.priceLevel)` then dereferences `null`. -/
def priceScore (slots : Slots) (enrichedData : Option Enriched) : Except Unit ℚ :=
  if priceSlotActive slots.price then
    match enrichedData with
    | none => .error ()
    | some e =>
      match e.priceLevel with
      | none => .ok 0
      | some v => .ok (if (priceTargetLevels slots.price).contains v then 10 else 0)
  else .ok 0

/-- Open-now rule: +15 for `openNow === true` on both sides, +5 partial match
for `openNow === false` on both sides. -/
def openNowScore (slots : Slots) (enrichedData : Option Enriched) : ℚ :=
  let enrOpen := (enrichedData.bind fun e => e.openingHours).bind fun oh => oh.openNow
  if slots.openNow == some true && enrOpen == some true then 15
  else if slots.openNow == some false && enrOpen == some false then 5
  else 0

/-- Rating boost: `Math.min(rating * 2, 10)` when `enrichedData?.rating` is truthy. -/
def ratingScore (enrichedData : Option Enriched) : ℚ :=
  match enrichedData.bind fun e => e.rating with
  | some r => if r ≠ 0 then jsMin (r * 2) 10 else 0
  | none => 0

/-- Distance rule: needs a truthy user location, `place.lat` and `place.lng`
(so latitude or longitude 0 disables it); +10 inside the truthy `distanceKm`
slot radius, else +5 inside the fixed 5 km default. -/
def distanceScore (dist : ℚ → ℚ → ℚ → ℚ → ℚ) (place : Place) (slots : Slots)
    (userLocation : Option GeoPoint) : ℚ :=
  match userLocation, place.lat, place.lng with
  | some loc, some lat, some lng =>
    if lat ≠ 0 ∧ lng ≠ 0 then
      let distance := dist loc.lat loc.lng lat lng
      match slots.distanceKm with
      | some d => if d ≠ 0 ∧ distance ≤ d then 10 else if distance ≤ 5 then 5 else 0
      | none => if distance ≤ 5 then 5 else 0
    else 0
  | _, _, _ => 0

/-- Vibe match (10 points): `place.vibe.toLowerCase().includes(slots.vibe.toLowerCase())`
when both are truthy. -/
def vibeScore (place : Place) (slots : Slots) : ℚ :=
  match slots.vibe, place.vibe with
  | some sv, some pv =>
    if strTruthy sv && strTruthy pv && strIncludes (jsToLower pv) (jsToLower sv) then 10 else 0
  | _, _ => 0

/-- The Scorer (`scorePlace`).  `dist` stands for `calculateDistance`. -/
def scorePlace (dist : ℚ → ℚ → ℚ → ℚ → ℚ) (place : Place) (slots : Slots)
    (enrichedData : Option Enriched) (userLocation : Option GeoPoint) : Except Unit ℚ :=
  match priceScore slots enrichedData with
  | .error e => .error e
  | .ok priceComponent =>
    .ok (categoryScore place slots enrichedData + cuisineScore place slots enrichedData +
      priceComponent + openNowScore slots enrichedData + ratingScore enrichedData +
      distanceScore dist place slots userLocation + vibeScore place slots)

/-! ## Candidate Filter (`filterCandidates`, ai.js lines 252–298) -/

/-- The lower-cased tag pool the filter's category rule searches:
`[...tags, ...placeTags, type, name]` after `.filter(Boolean)`. -/
def filterCategoryTags (p : Place) : List String :=
  (jsFilterBoolean (p.tags.map some ++ p.placeTags.map some ++
    [p.type, some p.name])).map jsToLower

/-- The lower-cased tag pool the filter's cuisine rule searches:
`[...tags, ...placeTags, name, notes]` after `.filter(Boolean)`. -/
def filterCuisineTags (p : Place) : List String :=
  (jsFilterBoolean (p.tags.map some ++ p.placeTags.map some ++
    [some p.name, p.notes])).map jsToLower

/-- The price rule's per-place predicate: a place with unknown price level
(`null`/`undefined`) is kept; otherwise its level must be in the target band. -/
def priceLevelPasses (targetLevels : List Int) (p : Place) : Bool :=
  match p.priceLevel with
  | none => true
  | some v => targetLevels.contains v

/-- The price stage of the Candidate Filter: active only for a truthy,
non-`'any'` price slot. -/
def priceStage (price : Option String) (candidates : List Place) : List Place :=
  if priceSlotActive price then
    candidates.filter (priceLevelPasses (priceTargetLevels price))
  else candidates

/-- The Candidate Filter.  `getByListName` stands for the place store's
`getPlacesByListName`; a truthy `listName` scopes the candidate set to it. -/
def filterCandidates (getByListName : String → List Place) (places : List Place)
    (slots : Slots) (listName : Option String) : List Place :=
  let candidates := match listName with
    | some n => if strTruthy n then getByListName n else places
    | none => places
  let candidates := match slots.category with
    | some c =>
      if strTruthy c then
        candidates.filter fun p =>
          (filterCategoryTags p).any fun tag => strIncludes tag (jsToLower c)
      else candidates
    | none => candidates
  let candidates := match slots.cuisine with
    | some c =>
      if strTruthy c then
        candidates.filter fun p =>
          (filterCuisineTags p).any fun tag => strIncludes tag (jsToLower c)
      else candidates
    | none => candidates
  (priceStage slots.price candidates).take 50

/-! ## Enrichment Gate and ranking (`handleChatSaved`, ai.js lines 732–767) -/

/-- A scored candidate: `{ place, enrichedData, score }`. -/
structure Scored where
  place : Place
  enrichedData : Option Enriched
  score : ℚ
deriving DecidableEq, Repr

/-- Per-candidate enrichment as the gate performs it: `fetchPlaceDetails` inside
`try`/`catch`, so a raising fetch degrades to `null` enrichment. -/
def enrichViaFetch (fetchDetails : String → Except Unit (Option Enriched))
    (place : Place) : Option Enriched :=
  match place.placeId with
  | some pid =>
    match fetchDetails pid with
    | .ok d => d
    | .error _ => none
  | none => none

/-- The Enrichment Gate: first 20 candidates with a truthy `placeId` are
enriched (concurrently in the source; the per-candidate results are what
matters), first 10 without one join the pool with `enrichedData = null`. -/
def enrichmentGate (scoredCandidates : List Place)
    (enrich : Place → Option Enriched) : List (Place × Option Enriched) :=
  let topCandidatesForEnrichment :=
    (scoredCandidates.filter fun p => optStrTruthy p.placeId).take 20
  let enrichedCandidates := topCandidatesForEnrichment.map fun place => (place, enrich place)
  let placesWithoutEnrichment :=
    ((scoredCandidates.filter fun p => !optStrTruthy p.placeId).take 10).map
      fun place => (place, (none : Option Enriched))
  enrichedCandidates ++ placesWithoutEnrichment

/-- Scores the pool in order (`allCandidatesForRanking.map(... scorePlace ...)`);
the first `TypeError` thrown by `scorePlace` aborts the whole map, as in JS. -/
def scoreAll (dist : ℚ → ℚ → ℚ → ℚ → ℚ) (slots : Slots) (userLocation : Option GeoPoint) :
    List (Place × Option Enriched) → Except Unit (List Scored)
  | [] => .ok []
  | pr :: rest =>
    match scorePlace dist pr.1 slots pr.2 userLocation with
    | .error e => .error e
    | .ok s =>
      match scoreAll dist slots userLocation rest with
      | .error e => .error e
      | .ok tail => .ok ({ place := pr.1, enrichedData := pr.2, score := s } :: tail)

/-- One step of a stable descending insertion: the new element goes after every
element with a score ≥ its own. -/
def insertScoredDesc (x : Scored) : List Scored → List Scored
  | [] => [x]
  | y :: ys => if y.score < x.score then x :: y :: ys else y :: insertScoredDesc x ys

/-- Stable sort, descending by score.  Models `scored.sort((a, b) => b.score - a.score)`:
ECMAScript `Array.prototype.sort` is required to be stable, and a stable sort
under a total preorder is unique, so any stable algorithm gives its semantics. -/
def sortByScoreDesc (l : List Scored) : List Scored :=
  l.foldl (fun acc x => insertScoredDesc x acc) []

/-- The ranking step of a recommendation turn: score the Enrichment Gate's pool,
sort descending by score (stable) and keep the top 5. -/
def rankTop5 (dist : ℚ → ℚ → ℚ → ℚ → ℚ) (scoredCandidates : List Place)
    (enrich : Place → Option Enriched) (slots : Slots) (userLocation : Option GeoPoint) :
    Except Unit (List Scored) :=
  match scoreAll dist slots userLocation (enrichmentGate scoredCandidates enrich) with
  | .error e => .error e
  | .ok scored => .ok ((sortByScoreDesc scored).take 5)

/-! ## Stable-sort lemmas

`sortByScoreDesc` is a permutation, is sorted descending by score, and is
stable: the subsequence of elements carrying any fixed score is unchanged.
Together with uniqueness of stable sorts these pin down the semantics of the
source's `scored.sort((a, b) => b.score - a.score)`. -/

theorem insertScoredDesc_perm (x : Scored) (l : List Scored) :
    (insertScoredDesc x l).Perm (x :: l) := by
  induction l with
  | nil => simp [insertScoredDesc]
  | cons y ys ih =>
    simp only [insertScoredDesc]
    split
    · exact List.Perm.refl _
    · exact (ih.cons y).trans (List.Perm.swap x y ys)

theorem insertScoredDesc_pairwise (x : Scored) (l : List Scored)
    (h : l.Pairwise fun a b => b.score ≤ a.score) :
    (insertScoredDesc x l).Pairwise fun a b => b.score ≤ a.score := by
  induction l with
  | nil => simp [insertScoredDesc]
  | cons y ys ih =>
    rw [List.pairwise_cons] at h
    obtain ⟨hy, hys⟩ := h
    simp only [insertScoredDesc]
    split
    · rename_i hlt
      refine List.Pairwise.cons ?_ (List.Pairwise.cons hy hys)
      intro z hz
      rcases List.mem_cons.mp hz with rfl | hz'
      · exact le_of_lt hlt
      · exact (hy z hz').trans (le_of_lt hlt)
    · rename_i hnlt
      refine List.Pairwise.cons ?_ (ih hys)
      intro z hz
      have hz' := (insertScoredDesc_perm x ys).mem_iff.mp hz
      rcases List.mem_cons.mp hz' with rfl | hz''
      · exact not_lt.mp hnlt
      · exact hy z hz''

theorem insertScoredDesc_filter (x : Scored) (l : List Scored) (q : ℚ)
    (h : l.Pairwise fun a b => b.score ≤ a.score) :
    (insertScoredDesc x l).filter (fun s => s.score == q) =
      l.filter (fun s => s.score == q) ++ if x.score == q then [x] else [] := by
  induction l with
  | nil => simp [insertScoredDesc, List.filter_cons]
  | cons y ys ih =>
    rw [List.pairwise_cons] at h
    obtain ⟨hy, hys⟩ := h
    simp only [insertScoredDesc]
    split
    · rename_i hlt
      by_cases hx : x.score = q
      · have hnone : (y :: ys).filter (fun s => s.score == q) = [] := by
          refine List.filter_eq_nil_iff.mpr ?_
          intro z hz
          have hzle : z.score < q := by
            rcases List.mem_cons.mp hz with rfl | hz'
            · exact hx ▸ hlt
            · exact lt_of_le_of_lt (hy z hz') (hx ▸ hlt)
          simpa using ne_of_lt hzle
        rw [List.filter_cons_of_pos (by simpa using hx), hnone, if_pos (by simpa using hx)]
        rfl
      · rw [List.filter_cons_of_neg (by simpa using hx), if_neg (by simpa using hx),
          List.append_nil]
    · rename_i hnlt
      rw [List.filter_cons, List.filter_cons]
      by_cases hyq : y.score = q
      · rw [if_pos (by simpa using hyq), if_pos (by simpa using hyq), ih hys,
          List.cons_append]
      · rw [if_neg (by simpa using hyq), if_neg (by simpa using hyq), ih hys]

theorem sortFoldl_perm (l : List Scored) : ∀ acc : List Scored,
    (l.foldl (fun acc x => insertScoredDesc x acc) acc).Perm (acc ++ l) := by
  induction l with
  | nil => intro acc; simp
  | cons x xs ih =>
    intro acc
    simp only [List.foldl_cons]
    refine (ih (insertScoredDesc x acc)).trans ?_
    refine (List.Perm.append_right xs (insertScoredDesc_perm x acc)).trans ?_
    exact List.perm_middle.symm

theorem sortFoldl_pairwise (l : List Scored) : ∀ acc : List Scored,
    (acc.Pairwise fun a b => b.score ≤ a.score) →
    (l.foldl (fun acc x => insertScoredDesc x acc) acc).Pairwise
      fun a b => b.score ≤ a.score := by
  induction l with
  | nil => intro acc h; simpa using h
  | cons x xs ih =>
    intro acc h
    simp only [List.foldl_cons]
    exact ih _ (insertScoredDesc_pairwise x acc h)

theorem sortFoldl_filter (q : ℚ) (l : List Scored) : ∀ acc : List Scored,
    (acc.Pairwise fun a b => b.score ≤ a.score) →
    (l.foldl (fun acc x => insertScoredDesc x acc) acc).filter (fun s => s.score == q) =
      acc.filter (fun s => s.score == q) ++ l.filter (fun s => s.score == q) := by
  induction l with
  | nil => intro acc _; simp
  | cons x xs ih =>
    intro acc h
    simp only [List.foldl_cons]
    rw [ih _ (insertScoredDesc_pairwise x acc h), insertScoredDesc_filter x acc q h,
      List.filter_cons]
    by_cases hx : x.score = q
    · rw [if_pos (by simpa using hx), if_pos (by simpa using hx), List.append_assoc,
        List.singleton_append]
    · rw [if_neg (by simpa using hx), if_neg (by simpa using hx), List.append_nil]

theorem sortByScoreDesc_perm (l : List Scored) : (sortByScoreDesc l).Perm l := by
  simpa using sortFoldl_perm l []

theorem sortByScoreDesc_pairwise (l : List Scored) :
    (sortByScoreDesc l).Pairwise fun a b => b.score ≤ a.score :=
  sortFoldl_pairwise l [] (by simp)

theorem sortByScoreDesc_filter (l : List Scored) (q : ℚ) :
    (sortByScoreDesc l).filter (fun s => s.score == q) =
      l.filter (fun s => s.score == q) := by
  simpa using sortFoldl_filter q l [] (by simp)

/-! ## Intent Interpreter (`interpretMessageWithGemini`, ai.js lines 128–247)

The HTTP call is modelled by `provider : Except Unit (Option String)`:
`.error ()` stands for a raising fetch or a non-2xx response, `.ok content` for
a 2xx response whose `choices[0].message.content` chain produced `content`
(`none` when some link of the chain was absent).  `JSON.parse` is a host
primitive and is modelled by the `jsonParse` parameter; `none` stands for a
parse exception. -/

/-- Number-to-string for the idealized JS numbers (used only inside rendered
messages; JS decimal formatting of non-integers is approximated by `num/den`). -/
def jsNumToString (q : ℚ) : String :=
  if q.den = 1 then toString q.num else toString q.num ++ "/" ++ toString q.den

/-- Worker for `natToLocaleString`: input digits reversed, a separator inserted
before every third digit. -/
def groupThousandsRev : List Char → Nat → List Char
  | [], _ => []
  | c :: rest, i =>
    if i ≠ 0 ∧ i % 3 = 0 then ',' :: c :: groupThousandsRev rest (i + 1)
    else c :: groupThousandsRev rest (i + 1)

/-- Models `n.toLocaleString()` for counts (en grouping: thousands commas). -/
def natToLocaleString (n : Nat) : String :=
  ⟨(groupThousandsRev (toString n).data.reverse 0).reverse⟩

/-- Models `text.match(/\{[\s\S]*\}/)`-style extraction (greedy): the slice from
the first `openCh` to the last `closeCh` after it, or the whole text when there
is no such pair. -/
def extractBracketed (openCh closeCh : Char) (text : String) : String :=
  let l := text.data
  match l.findIdx? (· == openCh), l.reverse.findIdx? (· == closeCh) with
  | some i, some jr =>
    let j := l.length - 1 - jr
    if i < j then ⟨(l.take (j + 1)).drop i⟩ else text
  | _, _ => text

/-- Extraction of the first-to-last brace span, `text.match(/\{[\s\S]*\}/)`. -/
def extractJsonObjectText (text : String) : String := extractBracketed '{' '}' text

/-- Extraction of the first-to-last bracket span, `text.match(/\[[\s\S]*\]/)`. -/
def extractJsonArrayText (text : String) : String := extractBracketed '[' ']' text

/-- The shape of the provider's parsed JSON reply; a field is `none` when the
object lacks it (or holds `null`). -/
structure IntentJson where
  intentType : Option String := none
  slots : Option Slots := none
  targetPlaceName : Option String := none
  questionType : Option String := none
  needsFollowUp : Option Bool := none
  questions : Option (List String) := none
  assistantMessage : Option String := none
deriving DecidableEq, Repr

/-- A structured intent, as `interpretMessageWithGemini` returns it. -/
structure Interpretation where
  intentType : String
  slots : Slots
  targetPlaceName : Option String
  questionType : Option String
  needsFollowUp : Bool
  questions : List String
  assistantMessage : String
deriving DecidableEq, Repr

/-- The deterministic fallback intent (missing key, provider error, parse error):
recommendation mode, slots unchanged, generic invitation message. -/
def defaultInterpretation (currentSlots : Slots) : Interpretation :=
  { intentType := "recommendations"
    slots := currentSlots
    targetPlaceName := none
    questionType := none
    needsFollowUp := false
    questions := []
    assistantMessage := "I can help you find places from your saved lists. What are you looking for?" }

/-- Field-by-field defaulting of the parsed reply (ai.js lines 225–233). -/
def interpretationFromJson (result : IntentJson) (currentSlots : Slots) : Interpretation :=
  { intentType := jsOrStrOpt result.intentType "recommendations"
    slots := result.slots.getD currentSlots
    targetPlaceName := jsTruthyOpt result.targetPlaceName
    questionType := jsTruthyOpt result.questionType
    needsFollowUp := result.needsFollowUp.getD false
    questions := result.questions.getD []
    assistantMessage := jsOrStrOpt result.assistantMessage
      "I can help you find places. What are you looking for?" }

/-- The Intent Interpreter.  `message` participates only through the prompt the
provider receives, which the `provider` parameter abstracts. -/
def interpretMessageWithGemini (apiKey : Option String)
    (provider : Except Unit (Option String)) (jsonParse : String → Option IntentJson)
    (message : String) (currentSlots : Slots) : Interpretation :=
  if !optStrTruthy apiKey then defaultInterpretation currentSlots
  else
    match provider with
    | .error _ => defaultInterpretation currentSlots
    | .ok content =>
      let text := jsOrStrOpt content "\x7b\x7d"
      let jsonText := extractJsonObjectText text
      match jsonParse jsonText with
      | none => defaultInterpretation currentSlots
      | some result => interpretationFromJson result currentSlots

/-! ## Explanation Generator (`generateBatchExplanations`, ai.js lines 387–476) -/

/-- The deterministic per-place template used on every fallback path (and for a
falsy `explanations[index]` in the result assembly): category display label (or
"place") plus rating (or "good reviews"). -/
def explanationTemplate (enrichedData : Option Enriched) : String :=
  "Great " ++
    jsOrStrOpt (enrichedData.bind fun e => e.categories.primaryDisplayName) "place" ++
    " with " ++
    (match jsTruthyNum (enrichedData.bind fun e => e.rating) with
     | some r => jsNumToString r ++ "⭐ rating"
     | none => "good reviews") ++ "."

/-- Result of `JSON.parse` on the explanation reply: `notArray` models a parsed
value that fails `Array.isArray`. -/
inductive ParsedExplanations where
  | notArray
  | arr (explanations : List String)
deriving DecidableEq, Repr

/-- The Explanation Generator.  One provider call for the whole batch; every
failure (missing key, provider error, parse error, non-array, wrong length)
falls back to the template for all places, never partially. -/
def generateBatchExplanations (apiKey : Option String)
    (provider : Except Unit (Option String))
    (jsonParse : String → Option ParsedExplanations)
    (top5Places : List Scored) (slots : Slots) : List String :=
  if !optStrTruthy apiKey then
    top5Places.map fun sc => explanationTemplate sc.enrichedData
  else
    match provider with
    | .error _ => top5Places.map fun sc => explanationTemplate sc.enrichedData
    | .ok content =>
      let text := jsOrStrOpt content "[]"
      match jsonParse (extractJsonArrayText text) with
      | some (.arr explanations) =>
        if explanations.length == top5Places.length then explanations
        else top5Places.map fun sc => explanationTemplate sc.enrichedData
      | some .notArray => top5Places.map fun sc => explanationTemplate sc.enrichedData
      | none => top5Places.map fun sc => explanationTemplate sc.enrichedData

/-! ## Chat Orchestrator (`handleChatSaved`, ai.js lines 559–838)

The per-turn handler.  Provider-touching subroutines enter as parameters:
`interpret` for `interpretMessageWithGemini`, `fetchDetails` for
`fetchPlaceDetails` (`.error ()` = rejected promise, `.ok none` = not found),
`genExplanations` for `generateBatchExplanations` (each of these owns its own
fallback and so returns totally).  The session store interaction is explicit:
`sessionSlots` is what `sessions.get(sessionId)` returned (`none` = unseen
session) and the second component of the result is the slot value written back
by `sessions.set` (`none` = the store was not touched this turn). -/

/-- One record of the `results` array (ai.js lines 790–816). -/
structure ResultRecord where
  id : String
  placeId : Option String
  name : String
  address : Option String
  rating : Option ℚ
  userRatingCount : Option Nat
  priceLevel : Option Int
  primaryType : Option String
  primaryTypeDisplayName : Option String
  types : List String
  openNow : Option Bool
  openingHoursText : Option String
  reviewSummary : Option String
  why : String
  score : ℚ
  lat : Option ℚ
  lng : Option ℚ
deriving DecidableEq, Repr

/-- The response sent for one chat turn: HTTP 400 for a missing message, HTTP
500 from the outer catch (the `error` payload carries `error.message`), or an
`ok: true` JSON body.  `optionalQuestion` is `none` both for an absent field
and a `null` one. -/
inductive ChatOutcome where
  | badRequest (error : String)
  | serverError (error : String)
  | success (mode : String) (assistantMessage : String) (updatedSlots : Slots)
      (results : List ResultRecord) (optionalQuestion : Option String)
deriving DecidableEq, Repr

/-- The greeting word alternatives of the first pattern
`/^(hi|hello|hey|greetings|howdy|hi there|hello there|hey there)(\s|$|[!.,?])/i`. -/
def greetingWordsLong : List String :=
  ["hi", "hello", "hey", "greetings", "howdy", "hi there", "hello there", "hey there"]

/-- The greeting word alternatives of the second pattern. -/
def greetingWordsShort : List String := ["hi", "hello", "hey"]

/-- The `(\s|$|[!.,?])` boundary after a matched greeting word. -/
def greetingBoundary : List Char → Bool
  | [] => true
  | c :: _ => c.isWhitespace || c == '!' || c == '.' || c == ',' || c == '?'

/-- Whether some greeting word matches at the start of `l`, followed by a
boundary.  (The message is already lower-cased, so the `/i` flag is spent.) -/
def greetingAt (words : List String) (l : List Char) : Bool :=
  words.any fun w => w.data.isPrefixOf l && greetingBoundary (l.drop w.data.length)

/-- First greeting pattern. -/
def greetingPattern1 (s : String) : Bool := greetingAt greetingWordsLong s.data

/-- Second greeting pattern `/^(\s|^)(hi|hello|hey)(\s|$|[!.,?])/i`: either the
word starts the string, or follows one leading whitespace character. -/
def greetingPattern2 (s : String) : Bool :=
  greetingAt greetingWordsShort s.data ||
    (match s.data with
     | c :: rest => c.isWhitespace && greetingAt greetingWordsShort rest
     | [] => false)

/-- Greeting detection (ai.js lines 581–587): some pattern matches and the
message has at most 5 whitespace-separated tokens. -/
def isGreetingMessage (messageLower : String) : Bool :=
  (greetingPattern1 messageLower || greetingPattern2 messageLower) &&
    decide ((jsSplitWhitespace messageLower).length ≤ 5)

/-- The canned greeting response text (ai.js line 594). -/
def welcomeMessage : String :=
  "Hi there! I can help you find places from your saved list. To get started, what kind of place are you looking for?"

/-- Models `Object.keys(session.slots).length === 0` under the convention that
a dimension is a key of the slots object exactly when it is set. -/
def slotsEmpty (s : Slots) : Bool :=
  s.category.isNone && s.cuisine.isNone && s.price.isNone && s.vibe.isNone &&
    s.openNow.isNone && s.distanceKm.isNone

/-- Target-place resolution for informational questions (ai.js lines 611–620):
exact case-insensitive name match first, then the fuzzy pass.  In the fuzzy
predicate the `searchName.includes(...)` disjunct is not guarded by `p.name`
(`&&` binds tighter than `||` in JS), so a place with an empty name matches
any query there. -/
def findTargetPlace (allPlaces : List Place) (targetPlaceName : Option String) : Option Place :=
  match targetPlaceName with
  | some n =>
    if strTruthy n then
      let searchName := jsToLower n
      (allPlaces.find? fun p => strTruthy p.name && (jsToLower p.name == searchName)).orElse
        fun _ =>
          allPlaces.find? fun p =>
            (strTruthy p.name && strIncludes (jsToLower p.name) searchName) ||
              strIncludes searchName (jsToLower p.name)
    else none
  | none => none

/-- Renders the informational answer (ai.js lines 626–677).  `.error ()` marks
the places where the source throws a `TypeError`: in the opening-hours and
general branches the guard `enrichedData?.openingHours?.openNow !== null`
passes when `enrichedData` or its `openingHours` is `null` (`undefined !== null`),
and the following unguarded member access throws.  The surrounding `try` turns
any such throw into the graceful fallback reply. -/
def renderInfoAnswer (interpretation : Interpretation) (targetPlace : Place)
    (enrichedData : Option Enriched) : Except Unit String :=
  let qt := interpretation.questionType
  if qt == some "openingHours" || qt == some "openNow" then
    match enrichedData with
    | none => .error ()
    | some ed =>
      match ed.openingHours with
      | none => .error ()
      | some oh =>
        match oh.openNow with
        | none => .ok ("I don\x27t have opening hours information for " ++ targetPlace.name ++ ".")
        | some isOpen =>
          let base := targetPlace.name ++ " is currently " ++
            (if isOpen then "**open**" else "**closed**") ++ "."
          if oh.weekdayText.length > 0 then
            .ok (base ++ "\n\nOpening hours:\n" ++
              String.intercalate "\n" (oh.weekdayText.take 7))
          else .ok base
  else if qt == some "rating" then
    match jsTruthyNum (enrichedData.bind fun e => e.rating) with
    | some r =>
      let reviewCount := ((enrichedData.bind fun e => e.userRatingCount).getD 0)
      .ok (targetPlace.name ++ " has a rating of **" ++ jsNumToString r ++ "⭐**" ++
        (if reviewCount > 0 then " (" ++ natToLocaleString reviewCount ++ " reviews)" else "") ++ ".")
    | none => .ok ("I don\x27t have rating information for " ++ targetPlace.name ++ ".")
  else if qt == some "address" then
    .ok (targetPlace.name ++ " is located at **" ++
      jsOrStrOpt ((jsTruthyOpt (enrichedData.bind fun e => e.address)).orElse
        fun _ => targetPlace.address) "address not available" ++ "**.")
  else if qt == some "phone" then
    match jsTruthyOpt (enrichedData.bind fun e => e.contact.phone) with
    | some phone => .ok ("You can reach " ++ targetPlace.name ++ " at **" ++ phone ++ "**.")
    | none => .ok ("I don\x27t have phone number information for " ++ targetPlace.name ++ ".")
  else if qt == some "website" then
    match jsTruthyOpt (enrichedData.bind fun e => e.contact.website) with
    | some website =>
      .ok ("You can visit " ++ targetPlace.name ++ "\x27s website at **" ++ website ++ "**.")
    | none => .ok ("I don\x27t have website information for " ++ targetPlace.name ++ ".")
  else
    match enrichedData with
    | none => .error ()
    | some ed =>
      match ed.openingHours with
      | none => .error ()
      | some oh =>
        let a0 := "Here\x27s what I know about " ++ targetPlace.name ++ ":\n\n"
        let a1 := a0 ++ (match jsTruthyOpt ed.address with
          | some ad => "📍 Address: " ++ ad ++ "\n"
          | none => "")
        let a2 := a1 ++ (match jsTruthyNum ed.rating with
          | some r =>
            let reviewCount := ed.userRatingCount.getD 0
            "⭐ Rating: " ++ jsNumToString r ++
              (if reviewCount > 0 then " (" ++ natToLocaleString reviewCount ++ " reviews)" else "") ++ "\n"
          | none => "")
        let a3 := a2 ++ (match oh.openNow with
          | some b => "🕐 Status: " ++ (if b then "Open now" else "Closed") ++ "\n"
          | none => "")
        let a4 := a3 ++ (match jsTruthyOpt ed.contact.phone with
          | some phone => "📞 Phone: " ++ phone ++ "\n"
          | none => "")
        let a5 := a4 ++ (match jsTruthyOpt ed.contact.website with
          | some website => "🌐 Website: " ++ website ++ "\n"
          | none => "")
        .ok a5

/-- The informational branch (ai.js lines 606–709).  Always leaves the session
slots untouched and returns empty results. -/
def answerInformational (fetchDetails : String → Except Unit (Option Enriched))
    (allPlaces : List Place) (interpretation : Interpretation)
    (sessionSlots : Slots) : ChatOutcome :=
  match findTargetPlace allPlaces interpretation.targetPlaceName with
  | some targetPlace =>
    if optStrTruthy targetPlace.placeId then
      match (match fetchDetails (targetPlace.placeId.getD "") with
             | .error e => .error e
             | .ok enrichedData => renderInfoAnswer interpretation targetPlace enrichedData :
             Except Unit String) with
      | .ok answer => .success "recommendations" answer sessionSlots [] none
      | .error _ =>
        .success "recommendations"
          ("I couldn\x27t find detailed information for " ++ targetPlace.name ++
            ". Would you like to see it in a recommendation list?") sessionSlots [] none
    else
      .success "recommendations"
        (jsOrStrOpt (some interpretation.assistantMessage)
          "I couldn\x27t find that place in your saved list. Which place are you asking about?")
        sessionSlots [] none
  | none =>
    .success "recommendations"
      (jsOrStrOpt (some interpretation.assistantMessage)
        "I couldn\x27t find that place in your saved list. Which place are you asking about?")
      sessionSlots [] none

/-- Assembly of one result record (ai.js lines 790–816). -/
def buildResultRecord (sc : Scored) (explanation : Option String) : ResultRecord :=
  let place := sc.place
  let e := sc.enrichedData
  { id := place.id
    placeId := (jsTruthyOpt place.placeId).orElse fun _ => jsTruthyOpt (e.map fun d => d.placeId)
    name := jsOrStrOpt (e.bind fun d => d.name) place.name
    address := (jsTruthyOpt (e.bind fun d => d.address)).orElse fun _ => place.address
    rating := jsTruthyNum (e.bind fun d => d.rating)
    userRatingCount := jsTruthyCount (e.bind fun d => d.userRatingCount)
    priceLevel := (e.bind fun d => d.priceLevel).orElse fun _ => place.priceLevel
    primaryType := jsTruthyOpt (e.bind fun d => d.categories.primary)
    primaryTypeDisplayName := jsTruthyOpt (e.bind fun d => d.categories.primaryDisplayName)
    types := (e.map fun d => d.categories.types).getD []
    openNow := (e.bind fun d => d.openingHours).bind fun oh => oh.openNow
    openingHoursText := (e.bind fun d => d.openingHours).map fun oh =>
      String.intercalate ", " oh.weekdayText
    reviewSummary := jsTruthyOpt (e.bind fun d => d.about)
    why := jsOrStrOpt explanation (explanationTemplate e)
    score := sc.score
    lat := jsTruthyNum place.lat
    lng := jsTruthyNum place.lng }

/-- The per-message handler.  Returns the response and the slot value written
to the session store (`none` when `sessions.set` was never reached). -/
def handleChatSaved (interpret : String → Slots → Interpretation)
    (fetchDetails : String → Except Unit (Option Enriched))
    (genExplanations : List Scored → Slots → List String)
    (allPlaces : List Place) (getByListName : String → List Place)
    (dist : ℚ → ℚ → ℚ → ℚ → ℚ) (message : String) (sessionSlots : Option Slots)
    (listName : Option String) (userLocation : Option GeoPoint)
    (initialSlots : Slots) : ChatOutcome × Option Slots :=
  if !strTruthy message then (.badRequest "Message is required", none)
  else
    let session := sessionSlots.getD initialSlots
    let messageLower := jsTrim (jsToLower message)
    if isGreetingMessage messageLower && slotsEmpty session then
      (.success "recommendations" welcomeMessage session [] none, none)
    else
      let interpretation := interpret message session
      if interpretation.intentType == "informational" then
        (answerInformational fetchDetails allPlaces interpretation session, none)
      else
        let newSlots := interpretation.slots
        let scoredCandidates := filterCandidates getByListName allPlaces newSlots listName
        if scoredCandidates.length == 0 then
          (.success "recommendations"
            "I couldn\x27t find any places matching your criteria. Try adjusting your search!"
            newSlots [] none, some newSlots)
        else
          match rankTop5 dist scoredCandidates (enrichViaFetch fetchDetails) newSlots
              userLocation with
          | .error _ =>
            (.serverError "Cannot read properties of null (reading \x27priceLevel\x27)",
              some newSlots)
          | .ok top5 =>
            if top5.length == 0 then
              (.success "recommendations"
                (jsOrStrOpt (some interpretation.assistantMessage)
                  "I couldn\x27t find any places matching your criteria. Try adjusting your search!")
                newSlots [] interpretation.questions.head?, some newSlots)
            else
              let explanations := genExplanations top5 newSlots
              let results := top5.enum.map fun pair =>
                buildResultRecord pair.2 explanations[pair.1]?
              (.success "recommendations"
                (jsOrStrOpt (some interpretation.assistantMessage)
                  ("Here are " ++ toString results.length ++
                    " recommendations based on your saved places:"))
                newSlots results interpretation.questions.head?, some newSlots)

/-! ## Component bounds for the Scorer -/

theorem categoryScore_nonneg (place : Place) (slots : Slots) (e : Option Enriched) :
    0 ≤ categoryScore place slots e := by
  unfold categoryScore
  cases slots.category with
  | none => norm_num
  | some c => dsimp only; split <;> norm_num

theorem categoryScore_le (place : Place) (slots : Slots) (e : Option Enriched) :
    categoryScore place slots e ≤ 20 := by
  unfold categoryScore
  cases slots.category with
  | none => norm_num
  | some c => dsimp only; split <;> norm_num

theorem cuisineScore_nonneg (place : Place) (slots : Slots) (e : Option Enriched) :
    0 ≤ cuisineScore place slots e := by
  unfold cuisineScore
  cases slots.cuisine with
  | none => norm_num
  | some c => dsimp only; split <;> norm_num

theorem cuisineScore_le (place : Place) (slots : Slots) (e : Option Enriched) :
    cuisineScore place slots e ≤ 15 := by
  unfold cuisineScore
  cases slots.cuisine with
  | none => norm_num
  | some c => dsimp only; split <;> norm_num

theorem priceScore_ok_le (slots : Slots) (e : Option Enriched) (v : ℚ)
    (h : priceScore slots e = .ok v) : v ≤ 10 := by
  unfold priceScore at h
  split at h
  · cases e with
    | none => simp at h
    | some ed =>
      cases hpl : ed.priceLevel with
      | none =>
        simp only [hpl] at h
        simp only [Except.ok.injEq] at h
        subst h
        norm_num
      | some lvl =>
        simp only [hpl] at h
        simp only [Except.ok.injEq] at h
        subst h
        split <;> norm_num
  · simp only [Except.ok.injEq] at h
    subst h
    norm_num

theorem openNowScore_le (slots : Slots) (e : Option Enriched) :
    openNowScore slots e ≤ 15 := by
  unfold openNowScore
  dsimp only
  split
  · norm_num
  · split <;> norm_num

theorem ratingScore_le (e : Option Enriched) : ratingScore e ≤ 10 := by
  unfold ratingScore
  cases e.bind fun d => d.rating with
  | none => norm_num
  | some r =>
    dsimp only
    split
    · unfold jsMin
      split
      · assumption
      · norm_num
    · norm_num

theorem distanceScore_le (dist : ℚ → ℚ → ℚ → ℚ → ℚ) (place : Place) (slots : Slots)
    (loc : Option GeoPoint) : distanceScore dist place slots loc ≤ 10 := by
  unfold distanceScore
  cases loc with
  | none => norm_num
  | some l =>
    cases place.lat with
    | none => norm_num
    | some la =>
      cases place.lng with
      | none => norm_num
      | some ln =>
        dsimp only
        split
        · cases slots.distanceKm with
          | none => dsimp only; split <;> norm_num
          | some d =>
            dsimp only
            split
            · norm_num
            · split <;> norm_num
        · norm_num

theorem vibeScore_le (place : Place) (slots : Slots) : vibeScore place slots ≤ 10 := by
  unfold vibeScore
  cases slots.vibe with
  | none => cases place.vibe <;> norm_num
  | some sv =>
    cases place.vibe with
    | none => norm_num
    | some pv => dsimp only; split <;> norm_num

/-! ## Claim theorems -/

/-- C1: the claim says the Scorer never raises and that an absent `enrichedData`
makes the price component contribute 0 even when a non-`'any'` price slot is
set.  The code disagrees: at exactly that input the guard
`enrichedData?.priceLevel !== null` passes (`undefined !== null`) and
`enrichedData.priceLevel` throws a `TypeError`.  This theorem evaluates the
embedded Scorer at the failing input. -/
theorem scorePlace_raises_on_null_enrichment_with_price_slot :
    scorePlace (fun _ _ _ _ => 0) {} { price := some "cheap" } none none = .error () := by
  decide

/-- C6: the Enrichment Gate's pool holds at most 20 identifier-bearing
candidates, at most 10 identifier-less ones (so at most 30 in total), and every
identifier-less candidate enters the pool with `enrichedData = null`. -/
theorem enrichmentGate_bounds (scoredCandidates : List Place)
    (enrich : Place → Option Enriched) :
    ((enrichmentGate scoredCandidates enrich).filter
        fun pr => optStrTruthy pr.1.placeId).length ≤ 20 ∧
    ((enrichmentGate scoredCandidates enrich).filter
        fun pr => !optStrTruthy pr.1.placeId).length ≤ 10 ∧
    (enrichmentGate scoredCandidates enrich).length ≤ 30 ∧
    (enrichmentGate scoredCandidates enrich).all
        (fun pr => optStrTruthy pr.1.placeId || pr.2.isNone) = true := by
  simp only [enrichmentGate]
  set A := ((scoredCandidates.filter fun p => optStrTruthy p.placeId).take 20).map
      (fun place => (place, enrich place)) with hAdef
  set B := ((scoredCandidates.filter fun p => !optStrTruthy p.placeId).take 10).map
      (fun place => (place, (none : Option Enriched))) with hBdef
  have hA : ∀ pr ∈ A, optStrTruthy pr.1.placeId = true := by
    intro pr hpr
    rw [hAdef] at hpr
    obtain ⟨pl, hpl, rfl⟩ := List.mem_map.mp hpr
    exact (List.mem_filter.mp (List.take_subset _ _ hpl)).2
  have hB : ∀ pr ∈ B, optStrTruthy pr.1.placeId = false ∧ pr.2 = none := by
    intro pr hpr
    rw [hBdef] at hpr
    obtain ⟨pl, hpl, rfl⟩ := List.mem_map.mp hpr
    have h2 := (List.mem_filter.mp (List.take_subset _ _ hpl)).2
    exact ⟨by simpa using h2, rfl⟩
  have hlenA : A.length ≤ 20 := by
    rw [hAdef, List.length_map, List.length_take]
    exact min_le_left _ _
  have hlenB : B.length ≤ 10 := by
    rw [hBdef, List.length_map, List.length_take]
    exact min_le_left _ _
  refine ⟨?_, ?_, ?_, ?_⟩
  · have e1 : List.filter (fun pr => optStrTruthy pr.1.placeId) A = A :=
      List.filter_eq_self.mpr hA
    have e2 : List.filter (fun pr => optStrTruthy pr.1.placeId) B = [] :=
      List.filter_eq_nil_iff.mpr fun pr hpr => by simp [(hB pr hpr).1]
    rw [List.filter_append, List.length_append, e1, e2]
    simpa using hlenA
  · have e1 : List.filter (fun pr => !optStrTruthy pr.1.placeId) A = [] :=
      List.filter_eq_nil_iff.mpr fun pr hpr => by simp [hA pr hpr]
    have e2 : List.filter (fun pr => !optStrTruthy pr.1.placeId) B = B :=
      List.filter_eq_self.mpr fun pr hpr => by simp [(hB pr hpr).1]
    rw [List.filter_append, List.length_append, e1, e2]
    simpa using hlenB
  · rw [List.length_append]
    omega
  · have e1 : A.all (fun pr => optStrTruthy pr.1.placeId || pr.2.isNone) = true :=
      List.all_eq_true.mpr fun pr hpr => by simp [hA pr hpr]
    have e2 : B.all (fun pr => optStrTruthy pr.1.placeId || pr.2.isNone) = true :=
      List.all_eq_true.mpr fun pr hpr => by simp [(hB pr hpr).2]
    rw [List.all_append, e1, e2]
    rfl

/-- C7: with no category, cuisine or price slot set and no list scope, the
Candidate Filter returns the input list truncated to its first 50 elements in
unchanged order. -/
theorem filterCandidates_no_slots (getByListName : String → List Place)
    (places : List Place) (slots : Slots) (hc : slots.category = none)
    (hcu : slots.cuisine = none) (hp : slots.price = none) :
    filterCandidates getByListName places slots none = places.take 50 := by
  unfold filterCandidates priceStage priceSlotActive
  rw [hc, hcu, hp]
  simp [optStrTruthy]

/-- C7 witness. -/
theorem filterCandidates_no_slots_witness :
    filterCandidates (fun _ => []) [{ id := "a" }, { id := "b" }] {} none =
      [{ id := "a" }, { id := "b" }] := by
  rw [filterCandidates_no_slots (fun _ => []) [{ id := "a" }, { id := "b" }] {} rfl rfl rfl]
  rfl

/-- C8: the price rule of the Candidate Filter never excludes a place whose
price level is unknown (`null`/`undefined`), whatever band the price slot
requests. -/
theorem priceStage_keeps_unknown_price (price : Option String) (candidates : List Place)
    (p : Place) (hunknown : p.priceLevel = none) (hmem : p ∈ candidates) :
    p ∈ priceStage price candidates := by
  unfold priceStage
  split
  · exact List.mem_filter.mpr ⟨hmem, by simp [priceLevelPasses, hunknown]⟩
  · exact hmem

/-- C8 witness: an unknown-price place survives the `'cheap'` band. -/
theorem priceStage_keeps_unknown_price_witness :
    ({ id := "a" } : Place) ∈ priceStage (some "cheap") [{ id := "a" }] :=
  priceStage_keeps_unknown_price (some "cheap") [{ id := "a" }] { id := "a" } rfl
    (by decide)

/-- C10: whenever the Scorer returns a value it is at most 90, the sum of the
seven rule maxima (20 + 15 + 10 + 15 + 10 + 10 + 10). -/
theorem scorePlace_le_90 (dist : ℚ → ℚ → ℚ → ℚ → ℚ) (place : Place) (slots : Slots)
    (e : Option Enriched) (loc : Option GeoPoint) (v : ℚ)
    (h : scorePlace dist place slots e loc = .ok v) : v ≤ 90 := by
  unfold scorePlace at h
  cases hp : priceScore slots e with
  | error err => rw [hp] at h; simp at h
  | ok pc =>
    rw [hp] at h
    simp only [Except.ok.injEq] at h
    subst h
    have h1 := categoryScore_le place slots e
    have h2 := cuisineScore_le place slots e
    have h3 := priceScore_ok_le slots e pc hp
    have h4 := openNowScore_le slots e
    have h5 := ratingScore_le e
    have h6 := distanceScore_le dist place slots loc
    have h7 := vibeScore_le place slots
    linarith

/-- C10 witness. -/
theorem scorePlace_le_90_witness :
    ∃ v, scorePlace (fun _ _ _ _ => 0) {} {} none none = .ok v ∧ v ≤ 90 :=
  ⟨0, by simp [scorePlace, priceScore, priceSlotActive, optStrTruthy, categoryScore,
      cuisineScore, openNowScore, ratingScore, distanceScore, vibeScore],
    scorePlace_le_90 (fun _ _ _ _ => 0) {} {} none none 0
      (by simp [scorePlace, priceScore, priceSlotActive, optStrTruthy, categoryScore,
        cuisineScore, openNowScore, ratingScore, distanceScore, vibeScore])⟩

/-- C4: whenever no provider credential is configured, or the provider call
raises, or the extracted reply text does not parse as JSON, the Intent
Interpreter returns (never raises — it is a total function) the deterministic
default: recommendation intent, slots unchanged, no target place, no questions,
and the generic invitation message. -/
theorem interpretMessageWithGemini_fallback (apiKey : Option String)
    (provider : Except Unit (Option String)) (jsonParse : String → Option IntentJson)
    (message : String) (currentSlots : Slots)
    (h : optStrTruthy apiKey = false ∨ provider = .error () ∨
      ∀ content, provider = .ok content →
        jsonParse (extractJsonObjectText (jsOrStrOpt content "\x7b\x7d")) = none) :
    interpretMessageWithGemini apiKey provider jsonParse message currentSlots =
      { intentType := "recommendations", slots := currentSlots, targetPlaceName := none,
        questionType := none, needsFollowUp := false, questions := [],
        assistantMessage := "I can help you find places from your saved lists. What are you looking for?" } := by
  unfold interpretMessageWithGemini
  rcases h with h | h | h
  · simp [h, defaultInterpretation]
  · subst h
    split
    · simp [defaultInterpretation]
    · simp [defaultInterpretation]
  · split
    · simp [defaultInterpretation]
    · cases provider with
      | error e => simp [defaultInterpretation]
      | ok content => simp [h content rfl, defaultInterpretation]

/-- C4 witness: no credential configured. -/
theorem interpretMessageWithGemini_fallback_witness :
    interpretMessageWithGemini none (.ok (some "find me pizza")) (fun _ => none)
      "find me pizza" { category := some "pizza" } =
      { intentType := "recommendations", slots := { category := some "pizza" },
        targetPlaceName := none, questionType := none, needsFollowUp := false,
        questions := [],
        assistantMessage := "I can help you find places from your saved lists. What are you looking for?" } :=
  interpretMessageWithGemini_fallback none (.ok (some "find me pizza")) (fun _ => none)
    "find me pizza" { category := some "pizza" } (Or.inl rfl)

/-- C5: whenever no credential is configured, or the provider call fails, or
the provider's reply parses to an array whose length differs from the number of
candidates, the Explanation Generator returns the deterministic template for
every candidate — never a partial merge — and never raises (it is total). -/
theorem generateBatchExplanations_fallback (apiKey : Option String)
    (provider : Except Unit (Option String))
    (jsonParse : String → Option ParsedExplanations) (top5Places : List Scored)
    (slots : Slots)
    (h : optStrTruthy apiKey = false ∨ provider = .error () ∨
      ∀ content explanations, provider = .ok content →
        jsonParse (extractJsonArrayText (jsOrStrOpt content "[]")) =
          some (.arr explanations) →
        explanations.length ≠ top5Places.length) :
    generateBatchExplanations apiKey provider jsonParse top5Places slots =
      top5Places.map fun sc => explanationTemplate sc.enrichedData := by
  unfold generateBatchExplanations
  rcases h with h | h | h
  · simp [h]
  · subst h
    split
    · rfl
    · rfl
  · split
    · rfl
    · cases provider with
      | error e => rfl
      | ok content =>
        cases hp : jsonParse (extractJsonArrayText (jsOrStrOpt content "[]")) with
        | none => simp [hp]
        | some pa =>
          cases pa with
          | notArray => simp [hp]
          | arr explanations =>
            have hne := h content explanations rfl hp
            simp [hp, beq_iff_eq, hne]

/-- C5 witness: a 4-element provider array against 5 candidates falls back to
the template for all 5. -/
theorem generateBatchExplanations_fallback_witness :
    generateBatchExplanations (some "key")
      (.ok (some "[\"a\",\"b\",\"c\",\"d\"]"))
      (fun _ => some (.arr ["a", "b", "c", "d"]))
      [{ place := { id := "1" }, enrichedData := none, score := 0 },
       { place := { id := "2" }, enrichedData := none, score := 0 },
       { place := { id := "3" }, enrichedData := none, score := 0 },
       { place := { id := "4" }, enrichedData := none, score := 0 },
       { place := { id := "5" }, enrichedData := none, score := 0 }] {} =
      ["Great place with good reviews.", "Great place with good reviews.",
       "Great place with good reviews.", "Great place with good reviews.",
       "Great place with good reviews."] := by
  rw [generateBatchExplanations_fallback (some "key")
    (.ok (some "[\"a\",\"b\",\"c\",\"d\"]"))
    (fun _ => some (.arr ["a", "b", "c", "d"]))
    [{ place := { id := "1" }, enrichedData := none, score := 0 },
     { place := { id := "2" }, enrichedData := none, score := 0 },
     { place := { id := "3" }, enrichedData := none, score := 0 },
     { place := { id := "4" }, enrichedData := none, score := 0 },
     { place := { id := "5" }, enrichedData := none, score := 0 }] {}
    (Or.inr (Or.inr (by intro content explanations hc hp; cases hc; cases hp; decide)))]
  decide

/-- C9: a short greeting (per the fixed pattern set, at most 5 tokens) on a
session whose slots are empty short-circuits the turn: the canned welcome is
returned with empty results, the outcome does not depend on the Intent
Interpreter (the theorem holds for every `interpret` oracle, which is only
consulted after this branch returns), and nothing is written to the session
store. -/
theorem handleChatSaved_greeting_short_circuit (interpret : String → Slots → Interpretation)
    (fetchDetails : String → Except Unit (Option Enriched))
    (genExplanations : List Scored → Slots → List String) (allPlaces : List Place)
    (getByListName : String → List Place) (dist : ℚ → ℚ → ℚ → ℚ → ℚ) (message : String)
    (sessionSlots : Option Slots) (listName : Option String)
    (userLocation : Option GeoPoint) (initialSlots : Slots)
    (hmsg : strTruthy message = true)
    (hgreet : isGreetingMessage (jsTrim (jsToLower message)) = true)
    (hempty : slotsEmpty (sessionSlots.getD initialSlots) = true) :
    handleChatSaved interpret fetchDetails genExplanations allPlaces getByListName dist
      message sessionSlots listName userLocation initialSlots =
      (.success "recommendations" welcomeMessage (sessionSlots.getD initialSlots) [] none,
        none) := by
  unfold handleChatSaved
  simp [hmsg, hgreet, hempty]

/-- C9 witness: the message "hi" on a fresh session. -/
theorem handleChatSaved_greeting_short_circuit_witness :
    handleChatSaved (fun _ s => defaultInterpretation s) (fun _ => .ok none) (fun _ _ => [])
      [] (fun _ => []) (fun _ _ _ _ => 0) "hi" none none none {} =
      (.success "recommendations" welcomeMessage {} [] none, none) :=
  handleChatSaved_greeting_short_circuit (fun _ s => defaultInterpretation s)
    (fun _ => .ok none) (fun _ _ => []) [] (fun _ => []) (fun _ _ _ _ => 0) "hi" none none
    none {} (by decide) (by decide) (by decide)

/-! ## Monotonicity of the category/cuisine rules under tag addition (C3) -/

theorem jsFilterBoolean_sublist {l1 l2 : List (Option String)} (h : l1.Sublist l2) :
    (jsFilterBoolean l1).Sublist (jsFilterBoolean l2) :=
  (h.filterMap id).filter strTruthy

theorem tagPool_sublist_addTag (place : Place) (t : String) (tailEntries : List (Option String)) :
    (place.tags.map some ++ tailEntries).Sublist
      ((place.tags ++ [t]).map some ++ tailEntries) := by
  rw [List.map_append]
  rw [List.append_assoc]
  exact (List.sublist_append_right _ _).append_left (place.tags.map some)

theorem categoryMatchTags_sublist_addTag (place : Place) (t : String)
    (e : Option Enriched) :
    (categoryMatchTags place e).Sublist
      (categoryMatchTags { place with tags := place.tags ++ [t] } e) := by
  unfold categoryMatchTags
  dsimp only
  simp only [List.append_assoc]
  exact (jsFilterBoolean_sublist (tagPool_sublist_addTag place t _)).map jsToLower

theorem cuisineMatchTags_sublist_addTag (place : Place) (t : String)
    (e : Option Enriched) :
    (cuisineMatchTags place e).Sublist
      (cuisineMatchTags { place with tags := place.tags ++ [t] } e) := by
  unfold cuisineMatchTags
  dsimp only
  simp only [List.append_assoc]
  exact (jsFilterBoolean_sublist (tagPool_sublist_addTag place t _)).map jsToLower

theorem any_of_sublist {l1 l2 : List String} (h : l1.Sublist l2) (p : String → Bool)
    (ha : l1.any p = true) : l2.any p = true := by
  obtain ⟨x, hx, hpx⟩ := List.any_eq_true.mp ha
  exact List.any_eq_true.mpr ⟨x, h.subset hx, hpx⟩

theorem categoryScore_addTag_mono (place : Place) (slots : Slots) (e : Option Enriched)
    (t : String) :
    categoryScore place slots e ≤
      categoryScore { place with tags := place.tags ++ [t] } slots e := by
  unfold categoryScore
  cases slots.category with
  | none => exact le_refl _
  | some c =>
    dsimp only
    by_cases h : (strTruthy c &&
        (categoryMatchTags place e).any fun tag => strIncludes tag (jsToLower c)) = true
    · rw [if_pos h]
      obtain ⟨h1, h2⟩ := Bool.and_eq_true_iff.mp h
      rw [if_pos (Bool.and_eq_true_iff.mpr
        ⟨h1, any_of_sublist (categoryMatchTags_sublist_addTag place t e) _ h2⟩)]
    · rw [if_neg h]
      split <;> norm_num

theorem cuisineScore_addTag_mono (place : Place) (slots : Slots) (e : Option Enriched)
    (t : String) :
    cuisineScore place slots e ≤
      cuisineScore { place with tags := place.tags ++ [t] } slots e := by
  unfold cuisineScore
  cases slots.cuisine with
  | none => exact le_refl _
  | some c =>
    dsimp only
    by_cases h : (strTruthy c &&
        (cuisineMatchTags place e).any fun tag => strIncludes tag (jsToLower c)) = true
    · rw [if_pos h]
      obtain ⟨h1, h2⟩ := Bool.and_eq_true_iff.mp h
      rw [if_pos (Bool.and_eq_true_iff.mpr
        ⟨h1, any_of_sublist (cuisineMatchTags_sublist_addTag place t e) _ h2⟩)]
    · rw [if_neg h]
      split <;> norm_num

theorem strTruthy_jsToLower (s : String) : strTruthy (jsToLower s) = strTruthy s := by
  unfold strTruthy jsToLower
  cases s with
  | mk data => cases data <;> simp

theorem strTruthy_of_strIncludes {s pat : String} (h : strIncludes s pat = true)
    (hpat : strTruthy pat = true) : strTruthy s = true := by
  unfold strIncludes at h
  unfold strTruthy at hpat ⊢
  cases hs : s.data with
  | nil =>
    rw [hs] at h
    unfold listIsInfix at h
    cases hp : pat.data with
    | nil => rw [hp] at hpat; simp at hpat
    | cons c cs => rw [hp] at h; simp [List.isEmpty] at h
  | cons c cs => simp

theorem categoryScore_addTag_eq_20 (place : Place) (slots : Slots) (e : Option Enriched)
    (t c : String) (hc : slots.category = some c) (hstr : strTruthy c = true)
    (hmatch : strIncludes (jsToLower t) (jsToLower c) = true) :
    categoryScore { place with tags := place.tags ++ [t] } slots e = 20 := by
  have htruthyLow : strTruthy (jsToLower t) = true :=
    strTruthy_of_strIncludes hmatch (by rw [strTruthy_jsToLower]; exact hstr)
  have htruthy : strTruthy t = true := by rwa [strTruthy_jsToLower] at htruthyLow
  unfold categoryScore
  rw [hc]
  dsimp only
  rw [if_pos]
  refine Bool.and_eq_true_iff.mpr ⟨hstr, List.any_eq_true.mpr ⟨jsToLower t, ?_, hmatch⟩⟩
  unfold categoryMatchTags
  refine List.mem_map.mpr ⟨t, ?_, rfl⟩
  unfold jsFilterBoolean
  refine List.mem_filter.mpr ⟨?_, htruthy⟩
  refine List.mem_filterMap.mpr ⟨some t, ?_, rfl⟩
  refine List.mem_append.mpr (Or.inl ?_)
  refine List.mem_append.mpr (Or.inl ?_)
  exact List.mem_map.mpr ⟨t, by simp, rfl⟩

/-- C3 counterexample: the claim as stated says a category-matching tag always
raises the score by exactly 20 when nothing else changed, but when the place
already matches the category the score is unchanged.  Here both the original
and the tag-extended place score 20 under category "cafe", and 20 ≠ 20 + 20. -/
theorem scorePlace_addTag_not_always_plus_20 :
    scorePlace (fun _ _ _ _ => 0) { tags := ["cafe"] } { category := some "cafe" }
        none none = .ok 20 ∧
    scorePlace (fun _ _ _ _ => 0) { tags := ["cafe", "cafe"] } { category := some "cafe" }
        none none = .ok 20 ∧
    ¬((20 : ℚ) = 20 + 20) := by
  refine ⟨?_, ?_, by norm_num⟩ <;>
    simp [scorePlace, priceScore, priceSlotActive, optStrTruthy, categoryScore, cuisineScore,
      openNowScore, ratingScore, distanceScore, vibeScore, categoryMatchTags, jsFilterBoolean,
      strTruthy, jsToLower, strIncludes, listIsInfix, List.isPrefixOf]

/-- C3 (amended): for a Slots with the category slot set, appending a
category-matching tag to an otherwise-identical place never decreases the
Scorer's output (whenever the original call returns a value, so does the
extended one), and the output rises by exactly 20 when additionally the
category slot is truthy, the unmodified place had no category match, and the
added tag leaves the cuisine component unchanged (a tag matching both rules
would add 35, and an already-matching place gains nothing). -/
theorem scorePlace_addTag_mono_and_exact (dist : ℚ → ℚ → ℚ → ℚ → ℚ) (place : Place)
    (slots : Slots) (e : Option Enriched) (loc : Option GeoPoint) (t c : String) (v : ℚ)
    (hc : slots.category = some c)
    (hmatch : strIncludes (jsToLower t) (jsToLower c) = true)
    (hok : scorePlace dist place slots e loc = .ok v) :
    ∃ w, scorePlace dist { place with tags := place.tags ++ [t] } slots e loc = .ok w ∧
      v ≤ w ∧
      (strTruthy c = true →
        categoryScore place slots e = 0 →
        cuisineScore { place with tags := place.tags ++ [t] } slots e =
          cuisineScore place slots e →
        w = v + 20) := by
  unfold scorePlace at hok ⊢
  cases hp : priceScore slots e with
  | error err => rw [hp] at hok; simp at hok
  | ok pc =>
    rw [hp] at hok
    simp only [Except.ok.injEq] at hok
    refine ⟨categoryScore { place with tags := place.tags ++ [t] } slots e +
      cuisineScore { place with tags := place.tags ++ [t] } slots e + pc +
      openNowScore slots e + ratingScore e +
      distanceScore dist { place with tags := place.tags ++ [t] } slots loc +
      vibeScore { place with tags := place.tags ++ [t] } slots, rfl, ?_, ?_⟩
    · have hcat := categoryScore_addTag_mono place slots e t
      have hcui := cuisineScore_addTag_mono place slots e t
      have hdist : distanceScore dist { place with tags := place.tags ++ [t] } slots loc =
          distanceScore dist place slots loc := rfl
      have hvibe : vibeScore { place with tags := place.tags ++ [t] } slots =
          vibeScore place slots := rfl
      rw [hdist, hvibe, ← hok]
      linarith
    · intro hstr hcat0 hcui
      have hcat20 := categoryScore_addTag_eq_20 place slots e t c hc hstr hmatch
      have hdist : distanceScore dist { place with tags := place.tags ++ [t] } slots loc =
          distanceScore dist place slots loc := rfl
      have hvibe : vibeScore { place with tags := place.tags ++ [t] } slots =
          vibeScore place slots := rfl
      rw [hcat20, hcui, hdist, hvibe, ← hok, hcat0]
      ring

/-- C3 witness: tag "vegan cafe" matches category "cafe" on a place with no
prior category match; the score rises from 0 to 20. -/
theorem scorePlace_addTag_mono_and_exact_witness :
    ∃ w, scorePlace (fun _ _ _ _ => 0) { name := "Spot", tags := ["quiet"] ++ ["vegan cafe"] }
        { category := some "cafe" } none none = .ok w ∧ (0 : ℚ) ≤ w ∧
      (strTruthy "cafe" = true →
        categoryScore { name := "Spot", tags := ["quiet"] } { category := some "cafe" } none = 0 →
        cuisineScore { name := "Spot", tags := ["quiet"] ++ ["vegan cafe"] }
            { category := some "cafe" } none =
          cuisineScore { name := "Spot", tags := ["quiet"] } { category := some "cafe" } none →
        w = 0 + 20) :=
  scorePlace_addTag_mono_and_exact (fun _ _ _ _ => 0) { name := "Spot", tags := ["quiet"] }
    { category := some "cafe" } none none "vegan cafe" "cafe" 0 rfl (by decide)
    (by simp [scorePlace, priceScore, priceSlotActive, optStrTruthy, categoryScore,
      cuisineScore, openNowScore, ratingScore, distanceScore, vibeScore, categoryMatchTags,
      jsFilterBoolean, strTruthy, jsToLower, strIncludes, listIsInfix, List.isPrefixOf])

/-! ## C2: ranking order -/

/-- C2 (amended): in every recommendation turn whose scoring completes, the
result list is the first 5 of a stable descending-by-score sort of the scoring
pool *in the pool's own order* — identifier-bearing candidates first (in
Candidate Filter output order), then identifier-less candidates (in Candidate
Filter output order).  Stability is expressed by the last conjunct: for every
score value, the subsequence of pool entries carrying that score is unchanged
by the sort. -/
theorem rankTop5_stable_sort_of_pool (dist : ℚ → ℚ → ℚ → ℚ → ℚ)
    (scoredCandidates : List Place) (enrich : Place → Option Enriched) (slots : Slots)
    (loc : Option GeoPoint) (out : List Scored)
    (hok : rankTop5 dist scoredCandidates enrich slots loc = .ok out) :
    ∃ scoredPool : List Scored,
      scoreAll dist slots loc (enrichmentGate scoredCandidates enrich) = .ok scoredPool ∧
      out = (sortByScoreDesc scoredPool).take 5 ∧
      (sortByScoreDesc scoredPool).Perm scoredPool ∧
      ((sortByScoreDesc scoredPool).Pairwise fun a b => b.score ≤ a.score) ∧
      ∀ q : ℚ, (sortByScoreDesc scoredPool).filter (fun s => s.score == q) =
        scoredPool.filter fun s => s.score == q := by
  unfold rankTop5 at hok
  cases hs : scoreAll dist slots loc (enrichmentGate scoredCandidates enrich) with
  | error e => rw [hs] at hok; simp at hok
  | ok scored =>
    rw [hs] at hok
    simp only [Except.ok.injEq] at hok
    exact ⟨scored, rfl, hok.symm, sortByScoreDesc_perm scored,
      sortByScoreDesc_pairwise scored, fun q => sortByScoreDesc_filter scored q⟩

/-- C2 witness. -/
theorem rankTop5_stable_sort_of_pool_witness :
    ∃ scoredPool,
      scoreAll (fun _ _ _ _ => 0) {} none
          (enrichmentGate [{ id := "p2", placeId := some "g2" }] fun _ => none) =
        .ok scoredPool ∧
      [({ place := { id := "p2", placeId := some "g2" }, enrichedData := none,
          score := 0 } : Scored)] = (sortByScoreDesc scoredPool).take 5 ∧
      (sortByScoreDesc scoredPool).Perm scoredPool ∧
      ((sortByScoreDesc scoredPool).Pairwise fun a b => b.score ≤ a.score) ∧
      ∀ q : ℚ, (sortByScoreDesc scoredPool).filter (fun s => s.score == q) =
        scoredPool.filter fun s => s.score == q :=
  rankTop5_stable_sort_of_pool (fun _ _ _ _ => 0) [{ id := "p2", placeId := some "g2" }]
    (fun _ => none) {} none
    [{ place := { id := "p2", placeId := some "g2" }, enrichedData := none, score := 0 }]
    (by simp [rankTop5, enrichmentGate, scoreAll, scorePlace, priceScore, priceSlotActive,
      optStrTruthy, strTruthy, categoryScore, cuisineScore, openNowScore, ratingScore,
      distanceScore, vibeScore, sortByScoreDesc, insertScoredDesc])

/-- Counterexample material for C2: a candidate without an external identifier
listed before one with an identifier. -/
def c2First : Place := { id := "p1", name := "First" }

/-- Counterexample material for C2; bears an external identifier. -/
def c2Second : Place := { id := "p2", name := "Second", placeId := some "g2" }

/-- The scored-pool entry of `c2First` (enrichment `null`, score 0). -/
def c2ScoredFirst : Scored := { place := c2First, enrichedData := none, score := 0 }

/-- The scored-pool entry of `c2Second` (enrichment failed → `null`, score 0). -/
def c2ScoredSecond : Scored := { place := c2Second, enrichedData := none, score := 0 }

/-- C2 counterexample: with empty slots both candidates tie at score 0, and the
Candidate Filter's output order is `[c2First, c2Second]`, so the claim
predicts the result `[c2ScoredFirst, c2ScoredSecond]` (second conjunct: the
stable sort of the pool taken in filter order indeed keeps that order).  The
code instead pools identifier-bearing candidates first and returns
`[c2ScoredSecond, c2ScoredFirst]` (first conjunct), which differs (third
conjunct): ties do not preserve the Candidate Filter's output order. -/
theorem rankTop5_tie_breaks_filter_order :
    rankTop5 (fun _ _ _ _ => 0) [c2First, c2Second] (fun _ => none) {} none =
      .ok [c2ScoredSecond, c2ScoredFirst] ∧
    (sortByScoreDesc [c2ScoredFirst, c2ScoredSecond]).take 5 =
      [c2ScoredFirst, c2ScoredSecond] ∧
    ([c2ScoredSecond, c2ScoredFirst] : List Scored) ≠ [c2ScoredFirst, c2ScoredSecond] := by
  refine ⟨?_, ?_, by decide⟩
  · simp [rankTop5, enrichmentGate, scoreAll, scorePlace, priceScore, priceSlotActive,
      optStrTruthy, strTruthy, categoryScore, cuisineScore, openNowScore, ratingScore,
      distanceScore, vibeScore, sortByScoreDesc, insertScoredDesc, c2First, c2Second,
      c2ScoredFirst, c2ScoredSecond]
  · simp [sortByScoreDesc, insertScoredDesc, c2ScoredFirst, c2ScoredSecond]
